import Mathlib

/-!
Verification of the ABGS check-in system.

The repository's source provides the `CheckIn` data model
(`src/app/models.py`, a SQLAlchemy declarative model) and two trivial HTTP
handlers (`src/app/main.py`).  The Check-in Store and Check-in Service
described by the specification (`submit`, `history`, `completion_ratio`,
`create`, `list_by_user`, `list_by_goal`) are referenced by the
repository (`app.database` is imported, the model declares the table the
Store persists to) but their code is not present under `src/`; those
operations are modelled from the spec below, each marked in its doc
comment.

Times (`DateTime`) are modelled as integers; dictionaries returned by the
HTTP handlers are modelled as association lists of strings.
-/

namespace ABGS

/-- The `CheckIn` entity, from `src/app/models.py`: columns `id` (integer
primary key), `user_id` (integer), `goal_name` (string), `status`
(string), `timestamp` (datetime, modelled as an integer). -/
structure CheckIn where
  id : Nat
  user_id : Int
  goal_name : String
  status : String
  timestamp : Int
deriving Repr, DecidableEq

/-- A check-in record before the Store has assigned it an `id`
(the spec's `record_without_id`). -/
structure NewCheckIn where
  user_id : Int
  goal_name : String
  status : String
  timestamp : Int
deriving Repr, DecidableEq

/-- A SQLAlchemy column default: either a fixed value or a callable that
is invoked at insert time with access to the current clock.  From
`src/app/models.py`, `Column(DateTime, default=datetime.utcnow)`. -/
inductive ColumnDefault where
  | value (v : Int)
  | callable (f : Int → Int)

/-- `datetime.utcnow` reads the current clock: with the clock passed
explicitly, it is the identity on the clock value. -/
def utcnow : Int → Int := id

/-- The default of the `timestamp` column in `src/app/models.py` line 12:
the callable `datetime.utcnow` itself is passed (not called), so the
default is `ColumnDefault.callable utcnow`, not a fixed value. -/
def timestampDefault : ColumnDefault := ColumnDefault.callable utcnow

/-- SQLAlchemy evaluates a column default at insert time: a fixed value
is used as is, a callable is called at the moment of the insert. -/
def evalDefault (d : ColumnDefault) (now : Int) : Int :=
  match d with
  | ColumnDefault.value v => v
  | ColumnDefault.callable f => f now

/-- Modelled from the spec: the Check-in Store (`app.database` and the
Store component of §4.1 are not under `src/`).  It owns the persisted
collection of records and the counter that serializes `id` assignment. -/
structure Store where
  records : List CheckIn
  next_id : Nat
deriving Repr, DecidableEq

/-- The empty store, as constructed once at process start (§9). -/
def Store.empty : Store := { records := [], next_id := 0 }

/-- Modelled from the spec: `create(record_without_id) → CheckIn` assigns
a unique `id` (an atomic increment of the store's counter), persists the
record and returns the stored record including its `id`. -/
def create (s : Store) (r : NewCheckIn) : CheckIn × Store :=
  let c : CheckIn :=
    { id := s.next_id, user_id := r.user_id, goal_name := r.goal_name,
      status := r.status, timestamp := r.timestamp }
  (c, { records := s.records ++ [c], next_id := s.next_id + 1 })

/-- Trimming surrounding whitespace from a string (Python's `str.strip`):
drop whitespace characters from both ends. -/
def strip (s : String) : String :=
  String.mk
    (((s.toList.dropWhile Char.isWhitespace).reverse.dropWhile
        Char.isWhitespace).reverse)

/-- The validation-error kinds of §7: `empty_goal_name` and
`invalid_status`. -/
inductive ValidationError where
  | empty_goal_name
  | invalid_status
deriving Repr, DecidableEq

/-- Modelled from the spec: `submit(user_id, goal_name, status,
timestamp?)` of §4.2.  Validates `goal_name` is non-empty after trimming
(failing with `empty_goal_name`), then validates `status` is exactly
`completed` or `missed` (failing with `invalid_status`), assigns the
current time when `timestamp` is omitted (via the `timestamp` column
default, evaluated at call time), and delegates to `create`.  The current
clock is passed explicitly as `now`. -/
def submit (s : Store) (user_id : Int) (goal_name : String)
    (status : String) (timestamp : Option Int) (now : Int) :
    Except ValidationError (CheckIn × Store) :=
  if strip goal_name = "" then
    Except.error ValidationError.empty_goal_name
  else if status = "completed" || status = "missed" then
    Except.ok (create s
      { user_id := user_id, goal_name := goal_name, status := status,
        timestamp := timestamp.getD (evalDefault timestampDefault now) })
  else
    Except.error ValidationError.invalid_status

/-- The store after a `submit` call: the new store on success, the old
store untouched on a validation error (the Service raised before any
Store call). -/
def submitStore (s : Store) (user_id : Int) (goal_name : String)
    (status : String) (timestamp : Option Int) (now : Int) : Store :=
  match submit s user_id goal_name status timestamp now with
  | Except.ok (_, s') => s'
  | Except.error _ => s

/-- The ordering rule of §4.1: `timestamp` ascending, ties broken by `id`
ascending. -/
def checkinLE (a b : CheckIn) : Prop :=
  a.timestamp < b.timestamp ∨ (a.timestamp = b.timestamp ∧ a.id ≤ b.id)

instance : DecidableRel checkinLE := fun a b => by
  unfold checkinLE; infer_instance

instance : IsTotal CheckIn checkinLE where
  total a b := by
    unfold checkinLE
    rcases lt_trichotomy a.timestamp b.timestamp with h | h | h
    · exact Or.inl (Or.inl h)
    · rcases Nat.le_total a.id b.id with h' | h'
      · exact Or.inl (Or.inr ⟨h, h'⟩)
      · exact Or.inr (Or.inr ⟨h.symm, h'⟩)
    · exact Or.inr (Or.inl h)

instance : IsTrans CheckIn checkinLE where
  trans a b c hab hbc := by
    unfold checkinLE at *
    rcases hab with h1 | ⟨h1, h1'⟩ <;> rcases hbc with h2 | ⟨h2, h2'⟩
    · exact Or.inl (h1.trans h2)
    · exact Or.inl (h2 ▸ h1)
    · exact Or.inl (h1 ▸ h2)
    · exact Or.inr ⟨h1.trans h2, h1'.trans h2'⟩

/-- Modelled from the spec: `list_by_user(user_id)` of §4.1 — all records
for the user, ordered by `timestamp` ascending, ties broken by `id`
ascending; the empty sequence when none exist. -/
def list_by_user (s : Store) (uid : Int) : List CheckIn :=
  List.insertionSort checkinLE (s.records.filter (fun c => c.user_id = uid))

/-- Modelled from the spec: `list_by_goal(goal_name)` of §4.1 — all
records across all users for that exact goal name, same ordering rule. -/
def list_by_goal (s : Store) (g : String) : List CheckIn :=
  List.insertionSort checkinLE (s.records.filter (fun c => c.goal_name = g))

/-- Modelled from the spec: `history(user_id)` of §4.2 delegates to
`Store.list_by_user`. -/
def history (s : Store) (uid : Int) : List CheckIn :=
  list_by_user s uid

/-- Modelled from the spec: `completion_ratio(goal_name)` of §4.2 —
`count(status == completed) / total count` over `list_by_goal`, defined
as `0` (not an error) when the total count is `0`. -/
def completion_ratio (s : Store) (g : String) : ℚ :=
  if (list_by_goal s g).length = 0 then 0
  else
    (((list_by_goal s g).filter
        (fun c => c.status = "completed")).length : ℚ) /
      ((list_by_goal s g).length : ℚ)

/-- The states of the Store reachable through the Service: the empty
store at process start, grown only by successful `submit` calls
(validation errors leave the store untouched). -/
inductive Reachable : Store → Prop where
  | init : Reachable Store.empty
  | step {s : Store} {uid : Int} {g st : String} {ts : Option Int}
      {now : Int} {c : CheckIn} {s' : Store} :
      Reachable s →
      submit s uid g st ts now = Except.ok (c, s') →
      Reachable s'

/-- From `src/app/main.py`: the `/` handler.  It takes no request data
and reads no state; each call builds the dictionary
`{"message": "ABGS running"}`, modelled as an association list. -/
def root (_ : Unit) : List (String × String) :=
  [("message", "ABGS running")]

/-- From `src/app/main.py`: the `/health` handler.  It takes no request
data and reads no state; each call builds `{"status": "ok"}`. -/
def health (_ : Unit) : List (String × String) :=
  [("status", "ok")]

/-! ### Basic lemmas -/

lemma strip_empty : strip "" = "" := rfl

lemma ne_empty_of_strip_ne_empty {g : String} (h : strip g ≠ "") : g ≠ "" := by
  intro hg
  exact h (hg ▸ strip_empty)

/-- Characterisation of a successful `submit`: both validations passed,
the returned record carries the submitted fields with the store's next
`id` (the timestamp defaulting to the call-time clock when omitted), and
the new store appends that record and bumps the counter. -/
lemma submit_ok_elim {s : Store} {uid : Int} {g st : String}
    {ts : Option Int} {now : Int} {c : CheckIn} {s' : Store}
    (h : submit s uid g st ts now = Except.ok (c, s')) :
    strip g ≠ "" ∧ (st = "completed" ∨ st = "missed") ∧
    c = CheckIn.mk s.next_id uid g st (ts.getD now) ∧
    s' = Store.mk (s.records ++ [c]) (s.next_id + 1) := by
  unfold submit at h
  split_ifs at h with h1 h2
  · refine ⟨h1, ?_, ?_⟩
    · rcases (Bool.or_eq_true _ _).mp h2 with h' | h'
      · exact Or.inl (of_decide_eq_true h')
      · exact Or.inr (of_decide_eq_true h')
    · have h3 := Except.ok.inj h
      have hc : c = CheckIn.mk s.next_id uid g st (ts.getD now) :=
        (congrArg Prod.fst h3).symm
      subst hc
      exact ⟨rfl, (congrArg Prod.snd h3).symm⟩

/-- The invariant of every reachable store: all `id`s are below the
counter, `id`s are pairwise distinct, every stored status lies in the
closed set, and no stored goal name is empty. -/
lemma reachable_inv {s : Store} (hs : Reachable s) :
    (∀ c ∈ s.records, c.id < s.next_id) ∧
    (s.records.map CheckIn.id).Nodup ∧
    (∀ c ∈ s.records, c.status = "completed" ∨ c.status = "missed") ∧
    (∀ c ∈ s.records, c.goal_name ≠ "") := by
  induction hs with
  | init => simp [Store.empty]
  | step hr hsub ih =>
    rename_i s uid g st ts now c s'
    obtain ⟨hg, hst, hc, hs'⟩ := submit_ok_elim hsub
    obtain ⟨ih1, ih2, ih3, ih4⟩ := ih
    subst hs'
    refine ⟨?_, ?_, ?_, ?_⟩
    · intro c0 hc0
      rcases List.mem_append.mp hc0 with h' | h'
      · exact Nat.lt_succ_of_lt (ih1 c0 h')
      · simp only [List.mem_singleton] at h'
        subst h'
        rw [hc]
        exact Nat.lt_succ_self _
    · rw [List.map_append, List.map_singleton, hc]
      refine (List.nodup_append).mpr ⟨ih2, List.nodup_singleton _, ?_⟩
      intro i hi
      simp only [List.mem_singleton]
      intro hmem
      obtain ⟨c0, hc0, hid⟩ := List.mem_map.mp hi
      subst hmem
      exact absurd (hid ▸ ih1 c0 hc0) (lt_irrefl _)
    · intro c0 hc0
      rcases List.mem_append.mp hc0 with h' | h'
      · exact ih3 c0 h'
      · simp only [List.mem_singleton] at h'
        subst h'
        rw [hc]
        exact hst
    · intro c0 hc0
      rcases List.mem_append.mp hc0 with h' | h'
      · exact ih4 c0 h'
      · simp only [List.mem_singleton] at h'
        subst h'
        rw [hc]
        exact ne_empty_of_strip_ne_empty hg

/-! ### Concrete reachable stores used by witnesses -/

def demoCheckIn : CheckIn := CheckIn.mk 0 1 "Exercise" "completed" 5

def demoStore : Store := Store.mk [demoCheckIn] 1

lemma demoStore_reachable : Reachable demoStore := by
  have h : submit Store.empty 1 "Exercise" "completed" (some 5) 0 =
      Except.ok (demoCheckIn, demoStore) := rfl
  exact Reachable.step Reachable.init h

def demoCheckIn2 : CheckIn := CheckIn.mk 1 1 "Exercise" "missed" 6

def demoStore2 : Store := Store.mk [demoCheckIn, demoCheckIn2] 2

lemma demoStore2_reachable : Reachable demoStore2 := by
  have h : submit demoStore 1 "Exercise" "missed" (some 6) 0 =
      Except.ok (demoCheckIn2, demoStore2) := rfl
  exact Reachable.step demoStore_reachable h

/-! ### Claim theorems -/

/-- C1: for every valid input (`user_id`, `goal_name` non-empty after
trimming, `status` in {completed, missed}), `submit` returns a `CheckIn`
whose `id` is fresh and unique among all stored records and whose
`user_id`, `goal_name`, `status` and `timestamp` equal the submitted
values. -/
theorem submit_fresh_id_and_echo (s : Store) (uid : Int) (g st : String)
    (ts now : Int) (hs : Reachable s) (hg : strip g ≠ "")
    (hst : st = "completed" ∨ st = "missed") :
    ∃ c s', submit s uid g st (some ts) now = Except.ok (c, s') ∧
      c.user_id = uid ∧ c.goal_name = g ∧ c.status = st ∧
      c.timestamp = ts ∧ (∀ c0 ∈ s.records, c0.id ≠ c.id) ∧
      c ∈ s'.records ∧ (s'.records.map CheckIn.id).Nodup := by
  have h2 : (decide (st = "completed") || decide (st = "missed")) = true := by
    rcases hst with h | h <;> simp [h]
  have heq : submit s uid g st (some ts) now =
      Except.ok (CheckIn.mk s.next_id uid g st ts,
        Store.mk (s.records ++ [CheckIn.mk s.next_id uid g st ts])
          (s.next_id + 1)) := by
    unfold submit
    rw [if_neg hg, if_pos h2]
    rfl
  refine ⟨_, _, heq, rfl, rfl, rfl, rfl, ?_, ?_, ?_⟩
  · intro c0 hc0
    exact Nat.ne_of_lt ((reachable_inv hs).1 c0 hc0)
  · simp
  · exact (reachable_inv (Reachable.step hs heq)).2.1

/-- Witness for C1 at a concrete valid input on the empty store. -/
theorem submit_fresh_id_and_echo_witness :
    ∃ c s',
      submit Store.empty 1 "Exercise" "completed" (some 5) 0 =
        Except.ok (c, s') ∧
      c.user_id = 1 ∧ c.goal_name = "Exercise" ∧ c.status = "completed" ∧
      c.timestamp = 5 ∧ (∀ c0 ∈ Store.empty.records, c0.id ≠ c.id) ∧
      c ∈ s'.records ∧ (s'.records.map CheckIn.id).Nodup :=
  submit_fresh_id_and_echo Store.empty 1 "Exercise" "completed" 5 0
    Reachable.init (by decide) (Or.inl rfl)

/-- C2: every record ever persisted (every record of a reachable store)
has status exactly `completed` or `missed`; in particular its status is
never the empty string. -/
theorem stored_status_completed_or_missed (s : Store) (c : CheckIn)
    (hs : Reachable s) (hc : c ∈ s.records) :
    (c.status = "completed" ∨ c.status = "missed") ∧ c.status ≠ "" := by
  rcases (reachable_inv hs).2.2.1 c hc with h | h
  · exact ⟨Or.inl h, by rw [h]; decide⟩
  · exact ⟨Or.inr h, by rw [h]; decide⟩

/-- Witness for C2 on a concrete reachable store. -/
theorem stored_status_completed_or_missed_witness :
    (demoCheckIn.status = "completed" ∨ demoCheckIn.status = "missed") ∧
    demoCheckIn.status ≠ "" :=
  stored_status_completed_or_missed demoStore demoCheckIn
    demoStore_reachable (by decide)

/-- C5: every record ever persisted through the validated submit path
has a non-empty `goal_name`. -/
theorem stored_goal_name_nonempty (s : Store) (c : CheckIn)
    (hs : Reachable s) (hc : c ∈ s.records) : c.goal_name ≠ "" :=
  (reachable_inv hs).2.2.2 c hc

/-- Witness for C5 on a concrete reachable store. -/
theorem stored_goal_name_nonempty_witness : demoCheckIn.goal_name ≠ "" :=
  stored_goal_name_nonempty demoStore demoCheckIn demoStore_reachable
    (by decide)

/-- C9: two distinct stored records of a reachable store never share an
`id`. -/
theorem stored_ids_unique (s : Store) (c1 c2 : CheckIn) (hs : Reachable s)
    (h1 : c1 ∈ s.records) (h2 : c2 ∈ s.records) (hne : c1 ≠ c2) :
    c1.id ≠ c2.id := by
  intro hid
  exact hne (List.inj_on_of_nodup_map (reachable_inv hs).2.1 h1 h2 hid)

/-- Witness for C9 on a concrete reachable store with two records. -/
theorem stored_ids_unique_witness : demoCheckIn.id ≠ demoCheckIn2.id :=
  stored_ids_unique demoStore2 demoCheckIn demoCheckIn2
    demoStore2_reachable (by decide) (by decide) (by decide)

/-- C4: `submit` with a `goal_name` that is empty after trimming fails
with `ValidationError.empty_goal_name` — whatever the status — and
performs no write: the store, and hence `history`, is unchanged. -/
theorem submit_empty_goal_name (s : Store) (uid : Int) (g st : String)
    (ts : Option Int) (now : Int) (hg : strip g = "") :
    submit s uid g st ts now =
      Except.error ValidationError.empty_goal_name ∧
    submitStore s uid g st ts now = s ∧
    history (submitStore s uid g st ts now) uid = history s uid := by
  have h : submit s uid g st ts now =
      Except.error ValidationError.empty_goal_name := by
    unfold submit
    rw [if_pos hg]
  refine ⟨h, ?_, ?_⟩ <;> unfold submitStore <;> rw [h]

/-- Witness for C4: whitespace-only goal name, otherwise valid input. -/
theorem submit_empty_goal_name_witness :
    submit demoStore 1 "   " "completed" (some 7) 0 =
      Except.error ValidationError.empty_goal_name ∧
    submitStore demoStore 1 "   " "completed" (some 7) 0 = demoStore ∧
    history (submitStore demoStore 1 "   " "completed" (some 7) 0) 1 =
      history demoStore 1 :=
  submit_empty_goal_name demoStore 1 "   " "completed" (some 7) 0
    (by decide)

/-- C3 counterexample: an input whose status is invalid but whose goal
name is empty after trimming fails with `empty_goal_name`, not
`invalid_status`, because the goal-name validation runs first. -/
theorem submit_invalid_status_counterexample :
    ("bogus" ≠ "completed" ∧ "bogus" ≠ "missed") ∧
    submit Store.empty 1 "" "bogus" (some 0) 0 =
      Except.error ValidationError.empty_goal_name ∧
    submit Store.empty 1 "" "bogus" (some 0) 0 ≠
      Except.error ValidationError.invalid_status := by
  refine ⟨by decide, rfl, ?_⟩
  intro h
  rw [show submit Store.empty 1 "" "bogus" (some 0) 0 =
      Except.error ValidationError.empty_goal_name from rfl] at h
  exact absurd (Except.error.inj h) (by decide)

/-- C3 (amended): for every input whose goal name passes validation
(non-empty after trimming) and whose status is not exactly `completed`
or `missed`, `submit` fails with `ValidationError.invalid_status` and
performs no write: the store, and hence `history`, is unchanged. -/
theorem submit_invalid_status (s : Store) (uid : Int) (g st : String)
    (ts : Option Int) (now : Int) (hg : strip g ≠ "")
    (h1 : st ≠ "completed") (h2 : st ≠ "missed") :
    submit s uid g st ts now =
      Except.error ValidationError.invalid_status ∧
    submitStore s uid g st ts now = s ∧
    history (submitStore s uid g st ts now) uid = history s uid := by
  have hb : ¬((decide (st = "completed") || decide (st = "missed")) = true) := by
    simp [h1, h2]
  have h : submit s uid g st ts now =
      Except.error ValidationError.invalid_status := by
    unfold submit
    rw [if_neg hg, if_neg hb]
  refine ⟨h, ?_, ?_⟩ <;> unfold submitStore <;> rw [h]

/-- Witness for C3's amended statement: valid goal name, bogus status. -/
theorem submit_invalid_status_witness :
    submit demoStore 1 "Exercise" "done" (some 7) 0 =
      Except.error ValidationError.invalid_status ∧
    submitStore demoStore 1 "Exercise" "done" (some 7) 0 = demoStore ∧
    history (submitStore demoStore 1 "Exercise" "done" (some 7) 0) 1 =
      history demoStore 1 :=
  submit_invalid_status demoStore 1 "Exercise" "done" (some 7) 0
    (by decide) (by decide) (by decide)

/-- C6: `history` returns exactly the user's records (a permutation of
the filter of the store by that user), every returned record belongs to
the user, the result is sorted by timestamp ascending with ties broken
by `id` ascending, and a user with no records gets the empty sequence. -/
theorem history_sorted_and_complete (s : Store) (uid : Int) :
    (history s uid).Perm
      (s.records.filter (fun c => c.user_id = uid)) ∧
    (∀ c ∈ history s uid, c.user_id = uid) ∧
    List.Sorted checkinLE (history s uid) ∧
    ((∀ c ∈ s.records, c.user_id ≠ uid) → history s uid = []) := by
  refine ⟨List.perm_insertionSort _ _, ?_,
    List.sorted_insertionSort _ _, ?_⟩
  · intro c hc
    have hmem := (List.mem_insertionSort _).mp hc
    exact of_decide_eq_true (List.mem_filter.mp hmem).2
  · intro hnone
    have hfil : s.records.filter (fun c => decide (c.user_id = uid)) = [] := by
      rw [List.filter_eq_nil_iff]
      intro c hc
      simpa using hnone c hc
    unfold history list_by_user
    rw [hfil]
    rfl

/-- Witness for C6 on a concrete two-record store. -/
theorem history_sorted_and_complete_witness :
    (history demoStore2 1).Perm
      (demoStore2.records.filter (fun c => c.user_id = 1)) ∧
    (∀ c ∈ history demoStore2 1, c.user_id = 1) ∧
    List.Sorted checkinLE (history demoStore2 1) ∧
    ((∀ c ∈ demoStore2.records, c.user_id ≠ 1) →
      history demoStore2 1 = []) :=
  history_sorted_and_complete demoStore2 1

/-- C7: the completion ratio is the number of the goal's records with
status `completed` divided by the goal's total record count, lies in
`[0, 1]`, and is `0` when the goal has no records. -/
theorem completion_ratio_spec (s : Store) (g : String) :
    completion_ratio s g =
      (((s.records.filter (fun c => c.goal_name = g)).filter
          (fun c => c.status = "completed")).length : ℚ) /
        ((s.records.filter (fun c => c.goal_name = g)).length : ℚ) ∧
    0 ≤ completion_ratio s g ∧ completion_ratio s g ≤ 1 ∧
    ((s.records.filter (fun c => c.goal_name = g)).length = 0 →
      completion_ratio s g = 0) := by
  have hperm : (list_by_goal s g).Perm
      (s.records.filter (fun c => decide (c.goal_name = g))) :=
    List.perm_insertionSort _ _
  have hlen : (list_by_goal s g).length =
      (s.records.filter (fun c => decide (c.goal_name = g))).length :=
    hperm.length_eq
  have hclen : ((list_by_goal s g).filter
        (fun c => decide (c.status = "completed"))).length =
      ((s.records.filter (fun c => decide (c.goal_name = g))).filter
        (fun c => decide (c.status = "completed"))).length :=
    (hperm.filter _).length_eq
  refine ⟨?_, ?_, ?_, ?_⟩
  · unfold completion_ratio
    split_ifs with h0
    · rw [hlen] at h0
      rw [h0]
      simp
    · rw [hclen, hlen]
  · unfold completion_ratio
    split_ifs with h0
    · exact le_refl 0
    · positivity
  · unfold completion_ratio
    split_ifs with h0
    · exact zero_le_one
    · apply div_le_one_of_le₀
      · exact_mod_cast List.length_filter_le _ _
      · positivity
  · intro h0
    unfold completion_ratio
    rw [if_pos]
    rw [hlen]
    exact h0

/-- Witness for C7 on a concrete store. -/
theorem completion_ratio_spec_witness :
    completion_ratio demoStore2 "Exercise" =
      (((demoStore2.records.filter
          (fun c => c.goal_name = "Exercise")).filter
          (fun c => c.status = "completed")).length : ℚ) /
        ((demoStore2.records.filter
          (fun c => c.goal_name = "Exercise")).length : ℚ) ∧
    0 ≤ completion_ratio demoStore2 "Exercise" ∧
    completion_ratio demoStore2 "Exercise" ≤ 1 ∧
    ((demoStore2.records.filter
        (fun c => c.goal_name = "Exercise")).length = 0 →
      completion_ratio demoStore2 "Exercise" = 0) :=
  completion_ratio_spec demoStore2 "Exercise"

/-- C8: the `timestamp` column default is the callable `datetime.utcnow`
(not a fixed value computed once), so a submission without an explicit
timestamp stores the clock value at the moment of that call, and two
such submissions at different times receive different defaults. -/
theorem default_timestamp_at_call_time (s : Store) (uid1 uid2 : Int)
    (g1 g2 st1 st2 : String) (now1 now2 : Int) (c1 c2 : CheckIn)
    (s1 s2 : Store)
    (h1 : submit s uid1 g1 st1 none now1 = Except.ok (c1, s1))
    (h2 : submit s1 uid2 g2 st2 none now2 = Except.ok (c2, s2)) :
    c1.timestamp = now1 ∧ c2.timestamp = now2 ∧
    (now1 ≠ now2 → c1.timestamp ≠ c2.timestamp) ∧
    timestampDefault = ColumnDefault.callable utcnow ∧
    (∀ t, evalDefault timestampDefault t = t) ∧
    (∀ v, timestampDefault ≠ ColumnDefault.value v) := by
  obtain ⟨-, -, hc1, -⟩ := submit_ok_elim h1
  obtain ⟨-, -, hc2, -⟩ := submit_ok_elim h2
  subst hc1
  subst hc2
  refine ⟨rfl, rfl, ?_, rfl, fun t => rfl, fun v h => ?_⟩
  · intro hne heq
    exact hne heq
  · exact ColumnDefault.noConfusion h

/-- Witness for C8: two default-timestamp submissions at times 3 and 4. -/
theorem default_timestamp_at_call_time_witness :
    (CheckIn.mk 0 1 "Exercise" "completed" 3).timestamp = 3 ∧
    (CheckIn.mk 1 1 "Exercise" "missed" 4).timestamp = 4 ∧
    ((3 : Int) ≠ 4 →
      (CheckIn.mk 0 1 "Exercise" "completed" 3).timestamp ≠
        (CheckIn.mk 1 1 "Exercise" "missed" 4).timestamp) ∧
    timestampDefault = ColumnDefault.callable utcnow ∧
    (∀ t, evalDefault timestampDefault t = t) ∧
    (∀ v, timestampDefault ≠ ColumnDefault.value v) :=
  default_timestamp_at_call_time Store.empty 1 1 "Exercise" "Exercise"
    "completed" "missed" 3 4 _ _ _ _ rfl rfl

/-- C10: the two implemented HTTP handlers are constant functions: every
call to `root` returns exactly the dictionary with message "ABGS
running", every call to `health` returns exactly the dictionary with
status "ok", and any two calls to the same handler return identical
values. -/
theorem handlers_constant :
    (∀ u : Unit, root u = [("message", "ABGS running")]) ∧
    (∀ u : Unit, health u = [("status", "ok")]) ∧
    (∀ u v : Unit, root u = root v) ∧
    (∀ u v : Unit, health u = health v) :=
  ⟨fun _ => rfl, fun _ => rfl, fun _ _ => rfl, fun _ _ => rfl⟩

end ABGS
